import Mathlib

/-!
Shallow embedding of `op-node/rollup/derive/engine_update.go`: the payload
validator (`isDepositTx`, `lastDeposit`, `sanityCheckPayload`), the payload
attempt initiation (`startPayload`), the builder/engine race
(`getPayloadWithBuilderPayload`), the insertion state machine
(`insertPayload`) and the confirmation orchestrator (`confirmPayload`).

Go conventions mapped to Lean:
- `eth.Data` (a byte slice) becomes `List Nat`, one `Nat` per byte.
- A Go function that can panic at runtime (nil-pointer dereference,
  index out of range) is modelled with an `Option` result; `none` is the
  panic. All ordinary `(value, error)` returns live inside the `some`.
- External calls (engine, conductor, builder) are modelled by passing their
  outcomes in as explicit environment values; the embedding records which
  calls were made and the final state of the gossip cache.
- Metrics calls are pure observability (out of scope per the engine-update
  contract) and are not modelled.
-/

deriving instance DecidableEq for Except

namespace EngineUpdate

/-- `types.DepositTxType` from go-ethereum: the first byte tagging a deposit
transaction (0x7E). -/
def DepositTxType : Nat := 126

/-- `eth.Data`: an opaque transaction, a byte string. -/
abbrev Data := List Nat

/-- `isDepositTx`: checks an opaque tx's first byte; an empty transaction is
an error ("empty transaction"). -/
def isDepositTx (opaqueTx : Data) : Except Unit Bool :=
  match opaqueTx with
  | [] => .error ()
  | b :: _ => .ok (b == DepositTxType)

/-- Loop body of `lastDeposit`: walks the transactions from index `i`,
carrying the index `acc` of the last deposit seen so far (Go initializes it
to 0); stops at the first non-deposit, errors (carrying the index) at the
first undecodable transaction. -/
def lastDepositAux : List Data → Nat → Nat → Except Nat Nat
  | [], _, acc => .ok acc
  | tx :: rest, i, acc =>
    match isDepositTx tx with
    | .error _ => .error i
    | .ok true => lastDepositAux rest (i + 1) i
    | .ok false => .ok acc

/-- `lastDeposit`: index of the last deposit in the run of deposits at the
start of the transaction list. -/
def lastDeposit (txns : List Data) : Except Nat Nat :=
  lastDepositAux txns 0 0

/-- The distinguishable failures of `sanityCheckPayload`, one constructor per
`return`ed error, carrying the indices the Go error messages carry. -/
inductive SanityErr
  /-- "no transactions in returned payload" -/
  | noTransactions
  /-- "first transaction was not deposit tx. Got %v" -/
  | firstNotDeposit (b : Nat)
  /-- "failed to find last deposit: invalid transaction at idx %d" -/
  | lastDepositFailed (i : Nat)
  /-- "failed to decode transaction idx %d" -/
  | decodeFailed (i : Nat)
  /-- "deposit tx (%d) after other tx in l2 block with prev deposit at idx %d" -/
  | depositAfterOther (i : Nat) (last : Nat)
deriving DecidableEq, Repr

/-- The loop "ensure no deposits after last deposit": checks the suffix of
the transaction list starting at index `i` (`i = last + 1` at the call
site). -/
def checkNoLaterDeposits (last : Nat) : List Data → Nat → Except SanityErr Unit
  | [], _ => .ok ()
  | tx :: rest, i =>
    match isDepositTx tx with
    | .error _ => .error (.decodeFailed i)
    | .ok true => .error (.depositAfterOther i last)
    | .ok false => checkNoLaterDeposits last rest (i + 1)

/-- `sanityCheckPayload`: structural check of a payload's transaction list.
`none` models the Go runtime panic: the check reads
`payload.Transactions[0][0]` directly, which is an index-out-of-range panic
when the first transaction is a zero-length byte string. -/
def sanityCheckPayload (transactions : List Data) : Option (Except SanityErr Unit) :=
  match transactions with
  | [] => some (.error .noTransactions)
  | t0 :: _ =>
    match t0.head? with
    | none => none
    | some b =>
      if b ≠ DepositTxType then some (.error (.firstNotDeposit b))
      else
        match lastDeposit transactions with
        | .error i => some (.error (.lastDepositFailed i))
        | .ok last => some (checkNoLaterDeposits last (transactions.drop (last + 1)) (last + 1))

/-- `BlockInsertionErrType`: the four-valued outcome classifier. -/
inductive BlockInsertionErrType
  | OK
  | TemporaryErr
  | PrestateErr
  | PayloadErr
deriving DecidableEq, Repr

/-- `eth.ExecutePayloadStatus` as returned by the engine. -/
inductive Status
  | Valid
  | Invalid
  | Syncing
  | Accepted
  | InvalidBlockHash
  | InvalidTerminalBlock
deriving DecidableEq, Repr

/-- `eth.InvalidForkchoiceState` error code (engine API code -38002). -/
def InvalidForkchoiceState : Int := -38002

/-- `eth.InvalidPayloadAttributes` error code (engine API code -38003). -/
def InvalidPayloadAttributes : Int := -38003

/-- Outcome of a failing engine call: either a structured `eth.InputError`
(matched by `errors.As`) carrying a code, or an unstructured
transport-level error. -/
inductive EngErr
  | input (code : Int)
  | transport
deriving DecidableEq, Repr

/-- `eth.PayloadID`: opaque 8-byte handle, modelled as a `Nat`. -/
abbrev PayloadID := Nat

/-- Result of a successful `ForkchoiceUpdate` call: the payload status and
the (possibly nil) payload ID. -/
structure FCResult where
  status : Status
  payloadID : Option PayloadID
deriving DecidableEq, Repr

/-- `startPayload`: classifies the outcome of the pre-block-creation
forkchoice-update call. The Go function returns a zero `eth.PayloadID` on
every non-OK path; that zero value is modelled as `none`. -/
def startPayload (fcuRes : Except EngErr FCResult) : Option PayloadID × BlockInsertionErrType :=
  match fcuRes with
  | .error (.input code) =>
    if code = InvalidForkchoiceState then (none, .PrestateErr)
    else if code = InvalidPayloadAttributes then (none, .PayloadErr)
    else (none, .PrestateErr)
  | .error .transport => (none, .TemporaryErr)
  | .ok res =>
    match res.status with
    | .Invalid => (none, .PayloadErr)
    | .InvalidBlockHash => (none, .PayloadErr)
    | .Valid =>
      match res.payloadID with
      | none => (none, .TemporaryErr)
      | some id => (some id, .OK)
    | _ => (none, .TemporaryErr)

/-- `eth.ExecutionPayloadEnvelope`, reduced to the fields this core reads:
the block hash and the transaction list. -/
structure Envelope where
  blockHash : Nat
  transactions : List Data
deriving DecidableEq, Repr

/-- `eth.ForkchoiceState`: head, safe and finalized block hashes. -/
structure ForkchoiceState where
  headBlockHash : Nat
  safeBlockHash : Nat
  finalizedBlockHash : Nat
deriving DecidableEq, Repr

/-- The underlying error returned alongside the `BlockInsertionErrType` by
`insertPayload`, one constructor per `return` site. -/
inductive InsertErr
  /-- sanity check failed (returned wrapped) -/
  | sanity (e : SanityErr)
  /-- "failed to commit unsafe payload to conductor" -/
  | conductorCommit
  /-- "failed to insert execution payload" (transport error from NewPayload) -/
  | newPayloadTransport
  /-- `eth.NewPayloadErr` for an Invalid / InvalidBlockHash status -/
  | newPayloadInvalid (st : Status)
  /-- `eth.NewPayloadErr` for any other non-Valid status -/
  | newPayloadNotValid (st : Status)
  /-- "post-block-creation forkchoice update was inconsistent with engine" -/
  | fcuInvalidForkchoice
  /-- "unexpected error code in forkchoice-updated response" -/
  | fcuOtherCode (code : Int)
  /-- "failed to make the new L2 block canonical via forkchoice" -/
  | fcuTransport
  /-- `eth.ForkchoiceUpdateErr` for a non-Valid post-insertion status -/
  | fcuStatusNotValid (st : Status)
deriving DecidableEq, Repr

/-- Responses of the external collaborators consumed by one `insertPayload`
run: the conductor's commit result, the engine's `NewPayload` result
(transport error or a status) and the engine's final `ForkchoiceUpdate`
result. -/
structure InsertEnv where
  commitOk : Bool
  newPayloadRes : Except Unit Status
  fcuRes : Except EngErr FCResult
deriving DecidableEq, Repr

/-- Observable outcome of one `insertPayload` run: the classified error
type, the underlying error (`none` exactly on the nil-error path), the final
state of the async-gossiper pending-payload cache (`true` = populated), and
which side effects happened. `fcuSent` is the forkchoice state passed to the
final update, when that call was made. -/
structure InsertOut where
  errTyp : BlockInsertionErrType
  err : Option InsertErr
  cache : Bool
  gossiped : Bool
  newPayloadCalled : Bool
  fcuSent : Option ForkchoiceState
deriving DecidableEq, Repr

/-- `insertPayload`: the insertion state machine
(validate → commit → gossip → execute → finalize). `envelope` is the Go
pointer: `none` makes the first statement `payload := envelope.ExecutionPayload`
a nil dereference, hence the run panics (`none` result); a panic inside the
sanity check propagates the same way. `cache0` is whether the gossiper cache
is populated on entry; `agossip.Gossip` sets it, `agossip.Clear` empties it. -/
def insertPayload (envelope : Option Envelope) (env : InsertEnv)
    (fc : ForkchoiceState) (updateSafe : Bool) (cache0 : Bool) : Option InsertOut :=
  match envelope with
  | none => none
  | some e =>
    match sanityCheckPayload e.transactions with
    | none => none
    | some (.error se) => some ⟨.PayloadErr, some (.sanity se), cache0, false, false, none⟩
    | some (.ok _) =>
      if !env.commitOk then
        some ⟨.TemporaryErr, some .conductorCommit, cache0, false, false, none⟩
      else
        -- agossip.Gossip(envelope): the cache is populated from here on
        match env.newPayloadRes with
        | .error _ => some ⟨.TemporaryErr, some .newPayloadTransport, true, true, true, none⟩
        | .ok st =>
          if st = .Invalid ∨ st = .InvalidBlockHash then
            -- agossip.Clear()
            some ⟨.PayloadErr, some (.newPayloadInvalid st), false, true, true, none⟩
          else if st ≠ .Valid then
            some ⟨.TemporaryErr, some (.newPayloadNotValid st), true, true, true, none⟩
          else
            let fc' : ForkchoiceState :=
              { fc with headBlockHash := e.blockHash,
                        safeBlockHash := if updateSafe then e.blockHash else fc.safeBlockHash }
            match env.fcuRes with
            | .error (.input code) =>
              if code = InvalidForkchoiceState then
                -- agossip.Clear(); pre-payload forkchoice worked, so this is a payload error
                some ⟨.PayloadErr, some .fcuInvalidForkchoice, false, true, true, some fc'⟩
              else
                -- agossip.Clear()
                some ⟨.PrestateErr, some (.fcuOtherCode code), false, true, true, some fc'⟩
            | .error .transport =>
              some ⟨.TemporaryErr, some .fcuTransport, true, true, true, some fc'⟩
            | .ok res =>
              -- agossip.Clear()
              if res.status ≠ .Valid then
                some ⟨.PayloadErr, some (.fcuStatusNotValid res.status), false, true, true, some fc'⟩
              else
                some ⟨.OK, none, false, true, true, some fc'⟩

/-- Outcome of the builder's concurrent `GetPayload` request as observed by
the `select` at the end of the race: the single-slot channel either delivers
one `result{envelope, profit}` in time, or the goroutine hit an error (it
cancels the deadline context and sends nothing), or the 2000 ms deadline
elapsed first. -/
inductive BuilderOutcome
  | delivered (envlp : Envelope) (profit : Nat)
  | failed
  | timedOut
deriving DecidableEq, Repr

/-- Inputs of one `getPayloadWithBuilderPayload` run: whether the builder
source is enabled, the engine `GetPayload` result (payload pointer and
error, as returned by the engine), and the builder outcome. -/
structure RaceEnv where
  builderEnabled : Bool
  engPayload : Option Envelope
  engErr : Option Unit
  builderOutcome : BuilderOutcome
deriving DecidableEq, Repr

/-- The quadruple returned by `getPayloadWithBuilderPayload`, plus a flag
recording whether the concurrent builder fetch was started at all. -/
structure RaceOut where
  envelope : Option Envelope
  builderEnvelope : Option Envelope
  profit : Option Nat
  err : Option Unit
  builderFetchStarted : Bool
deriving DecidableEq, Repr

/-- `getPayloadWithBuilderPayload`: with the builder disabled, only the
blocking engine fetch runs; otherwise the builder fetch races a 2000 ms
deadline and the `select` returns the builder pair only when the channel
delivered it, always keeping the engine result and the engine error. -/
def getPayloadWithBuilderPayload (r : RaceEnv) : RaceOut :=
  if !r.builderEnabled then
    ⟨r.engPayload, none, none, r.engErr, false⟩
  else
    match r.builderOutcome with
    | .delivered envlp profit => ⟨r.engPayload, some envlp, some profit, r.engErr, true⟩
    | .failed => ⟨r.engPayload, none, none, r.engErr, true⟩
    | .timedOut => ⟨r.engPayload, none, none, r.engErr, true⟩

/-- Inputs of one `confirmPayload` run: the async gossiper's cached payload
(`agossip.Get()`), the race inputs, and the collaborator responses for the
(up to two) `insertPayload` runs — one for the builder candidate, one for
the engine candidate. -/
structure ConfirmEnv where
  cached : Option Envelope
  race : RaceEnv
  builderInsert : InsertEnv
  engineInsert : InsertEnv
  fc : ForkchoiceState
  updateSafe : Bool
deriving DecidableEq, Repr

/-- Observable outcome of one `confirmPayload` run. -/
structure ConfirmOut where
  out : Option Envelope
  errTyp : BlockInsertionErrType
  err : Option InsertErr
  cache : Bool
  raceInvoked : Bool
  builderInsertAttempted : Bool
  engineInsertAttempted : Bool
deriving DecidableEq, Repr

/-- `confirmPayload`: the confirmation orchestrator. A populated gossip
cache short-circuits the race; a fetched builder payload is inserted first
and wins when its error is nil; otherwise the engine payload is inserted
and its result returned. The fetch error from the race is never checked:
the engine envelope is passed to `insertPayload` as-is (a nil envelope there
is a panic, `none`). -/
def confirmPayload (env : ConfirmEnv) : Option ConfirmOut :=
  let fetched :=
    match env.cached with
    | some c => ((some c : Option Envelope), (none : Option Envelope), false)
    | none =>
      let r := getPayloadWithBuilderPayload env.race
      (r.envelope, r.builderEnvelope, true)
  let envelope := fetched.1
  let builderEnvelope := fetched.2.1
  let raceInvoked := fetched.2.2
  let cache0 := env.cached.isSome
  match builderEnvelope with
  | some be =>
    match insertPayload (some be) env.builderInsert env.fc env.updateSafe cache0 with
    | none => none
    | some bout =>
      if bout.err.isNone then
        some ⟨some be, bout.errTyp, bout.err, bout.cache, raceInvoked, true, false⟩
      else
        match insertPayload envelope env.engineInsert env.fc env.updateSafe bout.cache with
        | none => none
        | some eout =>
          some ⟨envelope, eout.errTyp, eout.err, eout.cache, raceInvoked, true, true⟩
  | none =>
    match insertPayload envelope env.engineInsert env.fc env.updateSafe cache0 with
    | none => none
    | some eout =>
      some ⟨envelope, eout.errTyp, eout.err, eout.cache, raceInvoked, false, true⟩

/-! ## Helper lemmas about the payload validator -/

/-- An `isDepositTx` call answering `true` means the transaction starts with
the deposit tag byte. -/
theorem isDepositTx_ok_true {tx : Data} (h : isDepositTx tx = .ok true) :
    ∃ bs, tx = DepositTxType :: bs := by
  cases tx with
  | nil => simp [isDepositTx] at h
  | cons b bs =>
    have hb : b = DepositTxType := by simpa [isDepositTx] using h
    exact ⟨bs, by rw [hb]⟩

/-- An `isDepositTx` call answering `false` means the transaction is
nonempty and starts with a non-deposit byte. -/
theorem isDepositTx_ok_false {tx : Data} (h : isDepositTx tx = .ok false) :
    ∃ b bs, tx = b :: bs ∧ b ≠ DepositTxType := by
  cases tx with
  | nil => simp [isDepositTx] at h
  | cons b bs =>
    have hb : ¬ b = DepositTxType := by simpa [isDepositTx] using h
    exact ⟨b, bs, rfl, hb⟩

/-- `lastDeposit`'s loop on a list that starts with a run of deposits
followed by a non-deposit: it reports the index of the last deposit of the
run (or the incoming accumulator when the run is empty). -/
theorem lastDepositAux_leading_run (ds : List Data) (t : Data) (rest : List Data)
    (hds : ∀ d ∈ ds, isDepositTx d = .ok true) (ht : isDepositTx t = .ok false) :
    ∀ i0 acc, lastDepositAux (ds ++ t :: rest) i0 acc =
      .ok (if ds.isEmpty then acc else i0 + ds.length - 1) := by
  induction ds with
  | nil => intro i0 acc; simp [lastDepositAux, ht]
  | cons d ds ih =>
    intro i0 acc
    have hd : isDepositTx d = .ok true := hds d (by simp)
    have ih' := ih (fun d hd => hds d (by simp [hd])) (i0 + 1) i0
    show lastDepositAux (d :: (ds ++ t :: rest)) i0 acc = _
    rw [lastDepositAux, hd, ih']
    cases hds' : ds.isEmpty with
    | true =>
      have h0 : ds.length = 0 := by simpa [List.isEmpty_iff_length_eq_zero] using hds'
      simp [hds', h0]
    | false =>
      simp only [hds', List.isEmpty_cons, List.length_cons, Bool.false_eq_true,
        if_false]
      congr 1
      omega

/-- The no-later-deposits scan errors whenever a deposit transaction occurs
somewhere in the scanned suffix. -/
theorem checkNoLaterDeposits_err (l : List Data) (last : Nat)
    (hdep : ∃ tx ∈ l, isDepositTx tx = .ok true) :
    ∀ i, ∃ e, checkNoLaterDeposits last l i = .error e := by
  induction l with
  | nil => simp at hdep
  | cons tx' l ih =>
    intro i
    cases h' : isDepositTx tx' with
    | error u => exact ⟨.decodeFailed i, by simp [checkNoLaterDeposits, h']⟩
    | ok b =>
      cases b with
      | true => exact ⟨.depositAfterOther i last, by simp [checkNoLaterDeposits, h']⟩
      | false =>
        obtain ⟨tx, htx, hto⟩ := hdep
        rcases List.mem_cons.mp htx with rfl | hmem
        · rw [h'] at hto; simp at hto
        · obtain ⟨e, he⟩ := ih ⟨tx, hmem, hto⟩ (i + 1)
          exact ⟨e, by simp [checkNoLaterDeposits, h', he]⟩

end EngineUpdate

namespace EngineUpdate

/-! ## Claims about the payload validator -/

/-- C4: the validator accepts a payload whose transaction list is exactly
one deposit-type transaction; it rejects any payload in which a deposit
transaction appears after the first non-deposit transaction; on the example
`[deposit0, normal1, deposit2]` it fails at index 2 with the
deposit-after-non-deposit violation (recording the previous deposit at
index 0). The embedding is a pure function of the transaction list, so the
payload is not mutated. -/
theorem validator_single_deposit_and_interleaved_deposit :
    (∀ bs : Data, sanityCheckPayload [DepositTxType :: bs] = some (.ok ())) ∧
    (∀ (ds : List Data) (t : Data) (rest : List Data),
      (∀ d ∈ ds, isDepositTx d = .ok true) →
      isDepositTx t = .ok false →
      (∃ tx ∈ rest, isDepositTx tx = .ok true) →
      ∃ e, sanityCheckPayload (ds ++ t :: rest) = some (.error e)) ∧
    sanityCheckPayload [[DepositTxType], [1], [DepositTxType]] =
      some (.error (.depositAfterOther 2 0)) := by
  refine ⟨?_, ?_, by decide⟩
  · intro bs
    simp [sanityCheckPayload, lastDeposit, lastDepositAux, isDepositTx,
      checkNoLaterDeposits, DepositTxType]
  · intro ds t rest hds ht hdep
    cases ds with
    | nil =>
      obtain ⟨b, bs, rfl, hb⟩ := isDepositTx_ok_false ht
      exact ⟨.firstNotDeposit b, by simp [sanityCheckPayload, hb]⟩
    | cons d ds =>
      obtain ⟨bs, rfl⟩ := isDepositTx_ok_true (hds d (by simp))
      have hrun := lastDepositAux_leading_run ((DepositTxType :: bs) :: ds) t rest hds ht 0 0
      have hrun' : lastDeposit ((DepositTxType :: bs) :: (ds ++ t :: rest)) =
          .ok ds.length := by
        simpa [lastDeposit, List.cons_append] using hrun
      obtain ⟨e, he⟩ := checkNoLaterDeposits_err (t :: rest) ds.length
        (by obtain ⟨tx, htx, hto⟩ := hdep; exact ⟨tx, by simp [htx], hto⟩)
        (ds.length + 1)
      refine ⟨e, ?_⟩
      have hdrop : List.drop ds.length (ds ++ t :: rest) = t :: rest :=
        List.drop_left ds (t :: rest)
      simp [sanityCheckPayload, hrun', hdrop, he]

/-! ## Claims about the insertion state machine -/

/-- C1 counterexample: in the Finalizing phase, a structured input error
with the inconsistent-forkchoice-state code yields `PayloadErr` (the code
comments that a post-payload forkchoice inconsistency is a payload error),
not `PrestateErr` as the claim states. -/
theorem finalizing_inconsistent_state_cex :
    insertPayload (some ⟨0, [[DepositTxType]]⟩)
        ⟨true, .ok .Valid, .error (.input InvalidForkchoiceState)⟩ ⟨0, 0, 0⟩ false false =
      some ⟨.PayloadErr, some .fcuInvalidForkchoice, false, true, true, some ⟨0, 0, 0⟩⟩ ∧
    BlockInsertionErrType.PayloadErr ≠ BlockInsertionErrType.PrestateErr := by
  decide

/-- C1 (amended): in the Finalizing phase, a structured input error with
the inconsistent-forkchoice-state code yields `PayloadErr` and clears the
pending-payload cache, any other structured code yields `PrestateErr` and
clears the cache, and an unstructured/transport error yields `TemporaryErr`
leaving the cache populated. -/
theorem finalizing_phase_error_classification
    (e : Envelope) (env : InsertEnv) (fc : ForkchoiceState) (us cache0 : Bool)
    (hs : sanityCheckPayload e.transactions = some (.ok ()))
    (hc : env.commitOk = true)
    (hn : env.newPayloadRes = .ok .Valid) :
    (env.fcuRes = .error (.input InvalidForkchoiceState) →
      (insertPayload (some e) env fc us cache0).map (fun o => (o.errTyp, o.cache)) =
        some (.PayloadErr, false)) ∧
    (∀ code, code ≠ InvalidForkchoiceState → env.fcuRes = .error (.input code) →
      (insertPayload (some e) env fc us cache0).map (fun o => (o.errTyp, o.cache)) =
        some (.PrestateErr, false)) ∧
    (env.fcuRes = .error .transport →
      (insertPayload (some e) env fc us cache0).map (fun o => (o.errTyp, o.cache)) =
        some (.TemporaryErr, true)) := by
  refine ⟨fun h => ?_, fun code hcode h => ?_, fun h => ?_⟩
  · simp [insertPayload, hs, hc, hn, h]
  · simp [insertPayload, hs, hc, hn, h, hcode]
  · simp [insertPayload, hs, hc, hn, h]

/-- C1 witness: the amended classification evaluated at a concrete run
whose final forkchoice update fails with an unrecognized structured code. -/
theorem finalizing_phase_error_classification_witness :
    (insertPayload (some ⟨0, [[DepositTxType]]⟩)
        ⟨true, .ok .Valid, .error (.input 0)⟩ ⟨0, 0, 0⟩ false false).map
      (fun o => (o.errTyp, o.cache)) = some (.PrestateErr, false) :=
  (finalizing_phase_error_classification ⟨0, [[DepositTxType]]⟩
    ⟨true, .ok .Valid, .error (.input 0)⟩ ⟨0, 0, 0⟩ false false
    (by decide) rfl rfl).2.1 0 (by decide) rfl

/-- C2: once a run of the insertion state machine has gossiped (populating
the pending-payload cache), the cache is populated on exit exactly when the
terminal result is `TemporaryErr`; it is cleared on every `OK`,
`PayloadErr` or `PrestateErr` exit. -/
theorem gossip_cache_cleared_iff_not_temporary
    (envlp : Option Envelope) (env : InsertEnv) (fc : ForkchoiceState)
    (us cache0 : Bool) (out : InsertOut)
    (h : insertPayload envlp env fc us cache0 = some out)
    (hg : out.gossiped = true) :
    out.cache = true ↔ out.errTyp = .TemporaryErr := by
  cases envlp with
  | none => simp [insertPayload] at h
  | some e =>
    simp only [insertPayload] at h
    repeat' split at h
    all_goals first
      | (subst h; simp_all)
      | (obtain rfl := Option.some.inj h; simp_all)
      | simp at h

/-- C2 witness: a fully successful run — gossiped, and the cache is clear
on the `OK` exit. -/
theorem gossip_cache_cleared_iff_not_temporary_witness :
    ((⟨.OK, none, false, true, true, some ⟨0, 0, 0⟩⟩ : InsertOut).cache = true ↔
      (⟨.OK, none, false, true, true, some ⟨0, 0, 0⟩⟩ : InsertOut).errTyp = .TemporaryErr) :=
  gossip_cache_cleared_iff_not_temporary (some ⟨0, [[DepositTxType]]⟩)
    ⟨true, .ok .Valid, .ok ⟨.Valid, some 1⟩⟩ ⟨0, 0, 0⟩ false false
    ⟨.OK, none, false, true, true, some ⟨0, 0, 0⟩⟩ (by decide) rfl

/-- C7: when the conductor commit fails, the insertion state machine stops
with `TemporaryErr`: no gossip happened, no engine new-payload call, no
forkchoice update, and the cache is exactly as it was on entry. -/
theorem commit_failure_is_atomic_temporary
    (e : Envelope) (env : InsertEnv) (fc : ForkchoiceState) (us cache0 : Bool)
    (hs : sanityCheckPayload e.transactions = some (.ok ()))
    (hc : env.commitOk = false) :
    insertPayload (some e) env fc us cache0 =
      some ⟨.TemporaryErr, some .conductorCommit, cache0, false, false, none⟩ := by
  simp [insertPayload, hs, hc]

/-- C7 witness: a concrete run whose conductor commit fails. -/
theorem commit_failure_is_atomic_temporary_witness :
    insertPayload (some ⟨0, [[DepositTxType]]⟩)
        ⟨false, .ok .Valid, .error .transport⟩ ⟨0, 0, 0⟩ false true =
      some ⟨.TemporaryErr, some .conductorCommit, true, false, false, none⟩ :=
  commit_failure_is_atomic_temporary ⟨0, [[DepositTxType]]⟩
    ⟨false, .ok .Valid, .error .transport⟩ ⟨0, 0, 0⟩ false true (by decide) rfl

/-! ## Claim about payload-attempt initiation -/

/-- C6: `startPayload` classifies every forkchoice-update outcome: the
inconsistent-forkchoice-state code yields `PrestateErr`, the
invalid-attributes code yields `PayloadErr`, any other structured code
yields `PrestateErr`, a transport error yields `TemporaryErr`; on success,
`Invalid`/`InvalidBlockHash` yield `PayloadErr`, `Valid` with a present ID
yields `OK` carrying it, and `Valid` with a missing ID or any other status
yields `TemporaryErr`. -/
theorem start_payload_classification :
    (startPayload (.error (.input InvalidForkchoiceState)) = (none, .PrestateErr)) ∧
    (startPayload (.error (.input InvalidPayloadAttributes)) = (none, .PayloadErr)) ∧
    (∀ code : Int, code ≠ InvalidForkchoiceState → code ≠ InvalidPayloadAttributes →
      startPayload (.error (.input code)) = (none, .PrestateErr)) ∧
    (startPayload (.error .transport) = (none, .TemporaryErr)) ∧
    (∀ pid, startPayload (.ok ⟨.Invalid, pid⟩) = (none, .PayloadErr)) ∧
    (∀ pid, startPayload (.ok ⟨.InvalidBlockHash, pid⟩) = (none, .PayloadErr)) ∧
    (∀ pid, startPayload (.ok ⟨.Valid, some pid⟩) = (some pid, .OK)) ∧
    (startPayload (.ok ⟨.Valid, none⟩) = (none, .TemporaryErr)) ∧
    (∀ (st : Status) (pid : Option PayloadID),
      st ≠ .Valid → st ≠ .Invalid → st ≠ .InvalidBlockHash →
      startPayload (.ok ⟨st, pid⟩) = (none, .TemporaryErr)) := by
  refine ⟨by decide, by decide, fun code h1 h2 => ?_, by decide,
    fun pid => ?_, fun pid => ?_, fun pid => ?_, by decide, fun st pid h1 h2 h3 => ?_⟩
  · simp [startPayload, h1, h2]
  · simp [startPayload]
  · simp [startPayload]
  · simp [startPayload]
  · cases st <;> simp_all [startPayload]

/-- C6 witness: the classification evaluated at an unrecognized structured
code, a syncing status and a valid status with a present ID. -/
theorem start_payload_classification_witness :
    startPayload (.error (.input 0)) = (none, .PrestateErr) ∧
    startPayload (.ok ⟨.Syncing, none⟩) = (none, .TemporaryErr) ∧
    startPayload (.ok ⟨.Valid, some 7⟩) = (some 7, .OK) :=
  ⟨start_payload_classification.2.2.1 0 (by decide) (by decide),
   start_payload_classification.2.2.2.2.2.2.2.2 .Syncing none
     (by decide) (by decide) (by decide),
   start_payload_classification.2.2.2.2.2.2.1 7⟩

/-! ## Claims about the race coordinator and the confirmation orchestrator -/

/-- C9: with the builder source disabled only the blocking engine fetch
runs (no builder payload, no profit, no builder fetch started); and
whenever the builder fetch fails or times out, the result carries only the
engine payload and the returned error is the engine fetch's error, never
the builder failure. -/
theorem race_disabled_or_builder_failure_engine_only :
    (∀ r : RaceEnv, r.builderEnabled = false →
      getPayloadWithBuilderPayload r = ⟨r.engPayload, none, none, r.engErr, false⟩) ∧
    (∀ r : RaceEnv, r.builderOutcome = .failed ∨ r.builderOutcome = .timedOut →
      (getPayloadWithBuilderPayload r).envelope = r.engPayload ∧
      (getPayloadWithBuilderPayload r).builderEnvelope = none ∧
      (getPayloadWithBuilderPayload r).profit = none ∧
      (getPayloadWithBuilderPayload r).err = r.engErr) := by
  constructor
  · intro r h
    simp [getPayloadWithBuilderPayload, h]
  · intro r h
    rcases h with h | h <;> cases hb : r.builderEnabled <;>
      simp [getPayloadWithBuilderPayload, h, hb]

/-- C9 witness: a disabled-builder run and a timed-out builder run. -/
theorem race_disabled_or_builder_failure_engine_only_witness :
    getPayloadWithBuilderPayload ⟨false, none, some (), .failed⟩ =
      ⟨none, none, none, some (), false⟩ ∧
    (getPayloadWithBuilderPayload ⟨true, some ⟨1, [[DepositTxType]]⟩, none, .timedOut⟩).envelope =
      some ⟨1, [[DepositTxType]]⟩ ∧
    (getPayloadWithBuilderPayload ⟨true, some ⟨1, [[DepositTxType]]⟩, none, .timedOut⟩).builderEnvelope =
      none :=
  ⟨race_disabled_or_builder_failure_engine_only.1 ⟨false, none, some (), .failed⟩ rfl,
   (race_disabled_or_builder_failure_engine_only.2
     ⟨true, some ⟨1, [[DepositTxType]]⟩, none, .timedOut⟩ (Or.inr rfl)).1,
   (race_disabled_or_builder_failure_engine_only.2
     ⟨true, some ⟨1, [[DepositTxType]]⟩, none, .timedOut⟩ (Or.inr rfl)).2.1⟩

/-- C8: with the pending-payload cache populated, the orchestrator reuses
the cached payload as the insertion candidate and never invokes the race
coordinator. -/
theorem cache_hit_reuses_payload_skips_race
    (env : ConfirmEnv) (c : Envelope) (hc : env.cached = some c) :
    confirmPayload env =
      (insertPayload (some c) env.engineInsert env.fc env.updateSafe true).map
        (fun eout => ⟨some c, eout.errTyp, eout.err, eout.cache, false, false, true⟩) := by
  cases hei : insertPayload (some c) env.engineInsert env.fc env.updateSafe true with
  | none => simp [confirmPayload, hc, hei]
  | some eout => simp [confirmPayload, hc, hei]

/-- C8 witness: a concrete cache-hit run. -/
theorem cache_hit_reuses_payload_skips_race_witness :
    confirmPayload ⟨some ⟨3, [[DepositTxType]]⟩,
        ⟨true, none, some (), .failed⟩,
        ⟨true, .ok .Valid, .ok ⟨.Valid, some 1⟩⟩,
        ⟨true, .ok .Valid, .ok ⟨.Valid, some 1⟩⟩, ⟨0, 0, 0⟩, false⟩ =
      (insertPayload (some ⟨3, [[DepositTxType]]⟩) ⟨true, .ok .Valid, .ok ⟨.Valid, some 1⟩⟩
          ⟨0, 0, 0⟩ false true).map
        (fun eout => ⟨some ⟨3, [[DepositTxType]]⟩, eout.errTyp, eout.err, eout.cache,
          false, false, true⟩) :=
  cache_hit_reuses_payload_skips_race _ ⟨3, [[DepositTxType]]⟩ rfl

/-- C3: when a builder payload was obtained, its insertion is attempted
first; a nil-error (successful) builder insertion returns the builder
envelope with its outcome and never attempts the engine payload; any
builder insertion failure falls through to an independent engine-payload
insertion whose terminal result is the one returned. -/
theorem builder_first_engine_fallback
    (env : ConfirmEnv) (be : Envelope) (bout : InsertOut)
    (hc : env.cached = none)
    (hb : (getPayloadWithBuilderPayload env.race).builderEnvelope = some be)
    (hbi : insertPayload (some be) env.builderInsert env.fc env.updateSafe false = some bout) :
    (bout.err = none →
      confirmPayload env = some ⟨some be, bout.errTyp, bout.err, bout.cache, true, true, false⟩) ∧
    (bout.err ≠ none →
      confirmPayload env =
        (insertPayload (getPayloadWithBuilderPayload env.race).envelope env.engineInsert
            env.fc env.updateSafe bout.cache).map
          (fun eout => ⟨(getPayloadWithBuilderPayload env.race).envelope, eout.errTyp,
            eout.err, eout.cache, true, true, true⟩)) := by
  constructor
  · intro he
    simp [confirmPayload, hc, hb, hbi, he]
  · intro he
    have he' : bout.err.isNone = false := by
      cases hbe : bout.err with
      | none => exact absurd hbe he
      | some _ => simp
    cases hei : insertPayload (getPayloadWithBuilderPayload env.race).envelope
        env.engineInsert env.fc env.updateSafe bout.cache with
    | none => simp [confirmPayload, hc, hb, hbi, he', hei]
    | some eout => simp [confirmPayload, hc, hb, hbi, he', hei]

/-- C3 witness: a run whose builder insertion fails at the conductor and
falls back to the engine payload. -/
theorem builder_first_engine_fallback_witness :
    confirmPayload ⟨none,
        ⟨true, some ⟨1, [[DepositTxType]]⟩, none, .delivered ⟨2, [[DepositTxType]]⟩ 5⟩,
        ⟨false, .ok .Valid, .error .transport⟩,
        ⟨true, .ok .Valid, .ok ⟨.Valid, some 1⟩⟩, ⟨0, 0, 0⟩, false⟩ =
      (insertPayload
          (getPayloadWithBuilderPayload
            ⟨true, some ⟨1, [[DepositTxType]]⟩, none, .delivered ⟨2, [[DepositTxType]]⟩ 5⟩).envelope
          ⟨true, .ok .Valid, .ok ⟨.Valid, some 1⟩⟩ ⟨0, 0, 0⟩ false false).map
        (fun eout =>
          ⟨(getPayloadWithBuilderPayload
              ⟨true, some ⟨1, [[DepositTxType]]⟩, none, .delivered ⟨2, [[DepositTxType]]⟩ 5⟩).envelope,
            eout.errTyp, eout.err, eout.cache, true, true, true⟩) :=
  (builder_first_engine_fallback
    ⟨none, ⟨true, some ⟨1, [[DepositTxType]]⟩, none, .delivered ⟨2, [[DepositTxType]]⟩ 5⟩,
      ⟨false, .ok .Valid, .error .transport⟩,
      ⟨true, .ok .Valid, .ok ⟨.Valid, some 1⟩⟩, ⟨0, 0, 0⟩, false⟩
    ⟨2, [[DepositTxType]]⟩
    ⟨.TemporaryErr, some .conductorCommit, false, false, false, none⟩
    rfl (by decide) (by decide)).2 (by decide)

/-- C10: with an empty pending cache, a failing engine fetch (nil envelope,
error returned by the race) and no builder payload, the orchestrator does
not return the fetch error: it passes the nil envelope to the insertion
state machine, which dereferences it — the run panics (`none`). The race's
error slot is populated, so a fetch error was available to return. -/
theorem confirm_fetch_error_nil_envelope_panics :
    (getPayloadWithBuilderPayload ⟨false, none, some (), .failed⟩).err = some () ∧
    confirmPayload ⟨none,
        ⟨false, none, some (), .failed⟩,
        ⟨true, .ok .Valid, .ok ⟨.Valid, some 1⟩⟩,
        ⟨true, .ok .Valid, .ok ⟨.Valid, some 1⟩⟩, ⟨0, 0, 0⟩, false⟩ = none := by
  decide

/-- C4 witness: the acceptance part at the one-byte deposit transaction and
the rejection part at the `[deposit0, normal1, deposit2]` example. -/
theorem validator_single_deposit_and_interleaved_deposit_witness :
    sanityCheckPayload [[DepositTxType]] = some (.ok ()) ∧
    ∃ e, sanityCheckPayload ([[DepositTxType]] ++ [1] :: [[DepositTxType]]) =
      some (.error e) :=
  ⟨validator_single_deposit_and_interleaved_deposit.1 [],
   validator_single_deposit_and_interleaved_deposit.2.1 [[DepositTxType]] [1]
     [[DepositTxType]] (by decide) (by decide)
     ⟨[DepositTxType], by simp, by decide⟩⟩

/-- C5: evaluation of the validator at the claim's inputs. An empty
transaction list is an ordinary failure, and an undecodable (empty)
transaction at an index past 0 is an ordinary failure at that index, but a
zero-length FIRST transaction makes the validator panic (Go index out of
range on `payload.Transactions[0][0]`), modelled by the `none` result —
contradicting the claim that the validator is total and reports a
validation failure at index 0. -/
theorem validator_panics_on_zero_length_first_tx :
    sanityCheckPayload [[]] = none ∧
    sanityCheckPayload [] = some (.error .noTransactions) ∧
    sanityCheckPayload [[DepositTxType], []] = some (.error (.lastDepositFailed 1)) := by
  decide

end EngineUpdate
